import Mathlib

/-!
Verification of the ledger engine of the Finanças repository.

The two Python modules (`financas.py` and `app.py`) store accounts
(`conta`), categories (`categoria`) and transactions (`transacao`) in
SQLite and derive balances and month summaries from the transaction log.
Here the store is embedded shallowly: each table is a list of records, the
AUTOINCREMENT primary keys are explicit `next_*` counters, SQL `REAL`
amounts are exact rationals, and SQLite's BINARY text comparison is Lean's
lexicographic `String` order (both compare Unicode code points, since
UTF-8 byte order agrees with code-point order).
-/

namespace Financas

/-- A row of the `conta` table (`financas.py` `criar_tabelas`):
id, nome, saldo_inicial. -/
structure Conta where
  id : Nat
  nome : String
  saldo_inicial : ℚ
deriving Repr, DecidableEq

/-- A row of the `categoria` table: id, nome, tipo (with the SQL
constraint `tipo IN ('receita','despesa')` and `UNIQUE(nome, tipo)`
reflected in the operations below). -/
structure Categoria where
  id : Nat
  nome : String
  tipo : String
deriving Repr, DecidableEq

/-- A row of the `transacao` table: id, tipo, data (ISO-8601 text),
valor, categoria_id, conta_origem_id, conta_destino_id, descricao. -/
structure Transacao where
  id : Nat
  tipo : String
  data : String
  valor : ℚ
  categoria_id : Option Nat
  conta_origem_id : Nat
  conta_destino_id : Option Nat
  descricao : Option String
deriving Repr, DecidableEq

/-- The whole SQLite store: the three tables plus the AUTOINCREMENT
counters for their primary keys. -/
structure DB where
  contas : List Conta
  categorias : List Categoria
  transacoes : List Transacao
  next_conta_id : Nat
  next_categoria_id : Nat
  next_transacao_id : Nat
deriving Repr, DecidableEq

/-- Code-point lexicographic comparison of character lists: SQLite's BINARY
collation compares UTF-8 bytes, which orders strings exactly by code
points. -/
def strLeAux : List Char → List Char → Bool
  | [], _ => true
  | _ :: _, [] => false
  | a :: as, b :: bs =>
      if a.toNat < b.toNat then true
      else if b.toNat < a.toNat then false
      else strLeAux as bs

/-- SQLite BINARY `a <= b` on TEXT values. -/
def strLe (a b : String) : Bool := strLeAux a.data b.data

/-- SQLite BINARY `a < b` on TEXT values. -/
def strLt (a b : String) : Bool := !(strLe b a)

/-- `ALLOWED_TRANSACTION_TYPES` from `financas.py`. -/
def ALLOWED_TRANSACTION_TYPES : List String := ["receita", "despesa", "transferencia"]

/-- `ALLOWED_CATEGORY_TYPES` from `financas.py`. -/
def ALLOWED_CATEGORY_TYPES : List String := ["receita", "despesa"]

/-- The distinct `ValueError` messages raised by `financas.py`, as a closed
error type (one constructor per raise site). -/
inductive Erro where
  | tipoInvalido
  | valorNegativo
  | contaOrigemInexistente
  | contaDestinoInexistente
  | transferenciaSemDestino
  | receitaDespesaSemCategoria
  | categoriaInexistente
  | categoriaIncompativel
  | contaNaoEncontrada
  | tipoCategoriaInvalido
deriving Repr, DecidableEq

/-- `_registro_existente(con, "conta", record_id)`: does a `conta` row with
this id exist (`SELECT COUNT(1) FROM conta WHERE id = ?` compared to 0). -/
def registroExistenteConta (db : DB) (recordId : Nat) : Bool :=
  db.contas.any (fun c => c.id == recordId)

/-- `criar_conta(nome, saldo_inicial)`: a plain `INSERT INTO conta`, no
uniqueness check of any kind, returning `lastrowid`. -/
def criarConta (db : DB) (nome : String) (saldo_inicial : ℚ) : DB × Nat :=
  let novoId := db.next_conta_id
  ({ db with contas := db.contas ++ [⟨novoId, nome, saldo_inicial⟩],
             next_conta_id := novoId + 1 }, novoId)

/-- `criar_categoria(nome, tipo)`: rejects a tipo outside
`ALLOWED_CATEGORY_TYPES`, then `INSERT OR IGNORE` under the
`UNIQUE(nome, tipo)` constraint; when the insert is ignored
(`lastrowid == 0` on the fresh connection) it selects and returns the
existing id. -/
def criarCategoria (db : DB) (nome : String) (tipo : String) : Except Erro (DB × Nat) :=
  if !(ALLOWED_CATEGORY_TYPES.contains tipo) then
    .error .tipoCategoriaInvalido
  else
    match db.categorias.find? (fun c => c.nome == nome && c.tipo == tipo) with
    | some c => .ok (db, c.id)
    | none =>
        let novoId := db.next_categoria_id
        .ok ({ db with categorias := db.categorias ++ [⟨novoId, nome, tipo⟩],
                       next_categoria_id := novoId + 1 }, novoId)

/-- `_validar_transacao`: the validation chain of `financas.py`, returning
the first failure or `none` on acceptance, in exactly the source's order. -/
def validarTransacao (db : DB) (tipo : String) (valor : ℚ)
    (conta_origem_id : Nat) (categoria_id : Option Nat) (conta_destino_id : Option Nat) :
    Option Erro :=
  if !(ALLOWED_TRANSACTION_TYPES.contains tipo) then some .tipoInvalido
  else if valor < 0 then some .valorNegativo
  else if !(registroExistenteConta db conta_origem_id) then some .contaOrigemInexistente
  else if (match conta_destino_id with
           | some d => !(registroExistenteConta db d)
           | none => false) then some .contaDestinoInexistente
  else if tipo == "transferencia" then
    if conta_destino_id.isNone then some .transferenciaSemDestino else none
  else
    match categoria_id with
    | none => some .receitaDespesaSemCategoria
    | some cid =>
        match db.categorias.find? (fun c => c.id == cid) with
        | none => some .categoriaInexistente
        | some c => if c.tipo != tipo then some .categoriaIncompativel else none

/-- `registrar_transacao`: validate, then `INSERT INTO transacao`. A
validation failure raises before the insert runs, so the store is returned
unchanged alongside the error; on success the appended row's id is
returned. `data` is the caller-supplied timestamp (the Python default,
`datetime.now()`, is just a particular value of it). -/
def registrarTransacao (db : DB) (tipo : String) (valor : ℚ) (conta_origem_id : Nat)
    (data : String) (categoria_id : Option Nat) (conta_destino_id : Option Nat)
    (descricao : Option String) : DB × Except Erro Nat :=
  match validarTransacao db tipo valor conta_origem_id categoria_id conta_destino_id with
  | some e => (db, .error e)
  | none =>
      let novoId := db.next_transacao_id
      ({ db with
           transacoes := db.transacoes ++
             [⟨novoId, tipo, data, valor, categoria_id, conta_origem_id, conta_destino_id,
               descricao⟩],
           next_transacao_id := novoId + 1 },
       .ok novoId)

/-- `_total_por_tipo`: `SELECT COALESCE(SUM(valor), 0) FROM transacao
WHERE conta_origem_id = ? AND tipo = ?`. -/
def totalPorTipo (db : DB) (conta_id : Nat) (tipo : String) : ℚ :=
  ((db.transacoes.filter (fun t => t.conta_origem_id == conta_id && t.tipo == tipo)).map
    (fun t => t.valor)).sum

/-- `_total_transferencias_entrando`: `SELECT COALESCE(SUM(valor), 0) FROM
transacao WHERE conta_destino_id = ? AND tipo = 'transferencia'`. -/
def totalTransferenciasEntrando (db : DB) (conta_id : Nat) : ℚ :=
  ((db.transacoes.filter
      (fun t => t.conta_destino_id == some conta_id && t.tipo == "transferencia")).map
    (fun t => t.valor)).sum

/-- `saldo_atual`: look the account up, fail when absent, otherwise
initial balance + receitas − despesas − transferências out + transferências in. -/
def saldoAtual (db : DB) (conta_id : Nat) : Except Erro ℚ :=
  match db.contas.find? (fun c => c.id == conta_id) with
  | none => .error .contaNaoEncontrada
  | some c =>
      .ok (c.saldo_inicial
        + totalPorTipo db conta_id "receita"
        - totalPorTipo db conta_id "despesa"
        - totalPorTipo db conta_id "transferencia"
        + totalTransferenciasEntrando db conta_id)

/-- Python truthiness of the optional `tipo` argument (`if tipo:`): `None`
and the empty string are falsy. -/
def tipoTruthy : Option String → Bool
  | none => false
  | some t => t != ""

/-- `listar_categorias(tipo)` of `financas.py`: optional `WHERE tipo = ?`,
then `ORDER BY nome` — by name only, in both the filtered and the
unfiltered case. -/
def listarCategorias (db : DB) (tipo : Option String) : List Categoria :=
  let rows := if tipoTruthy tipo
    then db.categorias.filter (fun c => some c.tipo == tipo)
    else db.categorias
  List.insertionSort (fun a b : Categoria => strLe a.nome b.nome = true) rows

/-- `listar_categorias(tipo)` of `app.py`: with a truthy tipo,
`WHERE tipo=? ORDER BY nome`; without, `ORDER BY tipo, nome`. -/
def listarCategoriasApp (db : DB) (tipo : Option String) : List Categoria :=
  if tipoTruthy tipo then
    List.insertionSort (fun a b : Categoria => strLe a.nome b.nome = true)
      (db.categorias.filter (fun c => some c.tipo == tipo))
  else
    List.insertionSort
      (fun a b : Categoria =>
        strLt a.tipo b.tipo = true ∨ (a.tipo = b.tipo ∧ strLe a.nome b.nome = true))
      db.categorias

/-- `inserir_conta` of `app.py`, whose `conta` table declares
`nome TEXT NOT NULL UNIQUE`: the plain insert is rejected by the store
(`sqlite3.IntegrityError`) when the name already exists. -/
def inserirConta (db : DB) (nome : String) (saldo_inicial : ℚ) : Except Unit DB :=
  if db.contas.any (fun c => c.nome == nome) then .error ()
  else .ok { db with contas := db.contas ++ [⟨db.next_conta_id, nome, saldo_inicial⟩],
                     next_conta_id := db.next_conta_id + 1 }

/-- Leap-year test used by `calendar.monthrange`. -/
def bissexto (ano : Nat) : Bool :=
  (ano % 4 == 0 && ano % 100 != 0) || ano % 400 == 0

/-- `calendar.monthrange(ano, mes)[1]`: the number of days of the month. -/
def ultimoDiaDoMes (ano mes : Nat) : Nat :=
  if mes == 2 then (if bissexto ano then 29 else 28)
  else if mes == 4 || mes == 6 || mes == 9 || mes == 11 then 30
  else 31

/-- Python `f"{n:02d}"` for the values in range. -/
def pad2 (n : Nat) : String :=
  if n < 10 then "0" ++ toString n else toString n

/-- Python `f"{n:04d}"` for the values in range. -/
def pad4 (n : Nat) : String :=
  if n < 10 then "000" ++ toString n
  else if n < 100 then "00" ++ toString n
  else if n < 1000 then "0" ++ toString n
  else toString n

/-- `resumo_mes(ano, mes)` of `financas.py`: sums receitas and despesas
over `WHERE data BETWEEN ? AND ?` with `inicio = "AAAA-MM-01"` and
`fim = "AAAA-MM-<ultimo dia>"` — an inclusive string comparison whose
upper bound has no time component. Returns (receitas, despesas, saldo). -/
def resumoMes (db : DB) (ano mes : Nat) : ℚ × ℚ × ℚ :=
  let inicio := pad4 ano ++ "-" ++ pad2 mes ++ "-01"
  let fim := pad4 ano ++ "-" ++ pad2 mes ++ "-" ++ pad2 (ultimoDiaDoMes ano mes)
  let rows := db.transacoes.filter
    (fun t => strLe inicio t.data && strLe t.data fim)
  let receitas := ((rows.filter (fun t => t.tipo == "receita")).map (fun t => t.valor)).sum
  let despesas := ((rows.filter (fun t => t.tipo == "despesa")).map (fun t => t.valor)).sum
  (receitas, despesas, receitas - despesas)

/-- An enriched row of `app.py`'s `buscar_transacoes`: the LEFT JOINs
resolve the account and category names (absent references give NULL). -/
structure LinhaTransacao where
  id : Nat
  data : String
  tipo : String
  valor : ℚ
  conta_origem : Option String
  conta_destino : Option String
  categoria : Option String
  descricao : Option String
deriving Repr, DecidableEq

/-- Name of the `conta` row with a given id, when both the id and the row
are present (the LEFT JOIN `co.nome` / `cd.nome` columns). -/
def nomeConta (db : DB) (cid : Option Nat) : Option String :=
  match cid with
  | none => none
  | some i => (db.contas.find? (fun c => c.id == i)).map (fun c => c.nome)

/-- Name of the `categoria` row with a given id (the LEFT JOIN `c.nome`). -/
def nomeCategoria (db : DB) (cid : Option Nat) : Option String :=
  match cid with
  | none => none
  | some i => (db.categorias.find? (fun c => c.id == i)).map (fun c => c.nome)

/-- `buscar_transacoes(ano, mes, conta_id)` of `app.py`: optional account
filter (source or destination), optional half-open month window
`data >= "AAAA-MM-01T00:00:00" AND data < <first day of next month>`
(December rolls into January of ano+1), ordered by
`data DESC, id DESC`, each row enriched with the joined names. The
Python guards `if conta_id:` and `if ano and mes:` are truthiness tests. -/
def buscarTransacoes (db : DB) (ano mes : Option Nat) (conta_id : Option Nat) :
    List LinhaTransacao :=
  let rows := db.transacoes
  let rows := match conta_id with
    | some cid =>
        if cid != 0 then
          rows.filter (fun t => t.conta_origem_id == cid || t.conta_destino_id == some cid)
        else rows
    | none => rows
  let rows := match ano, mes with
    | some a, some m =>
        if a != 0 && m != 0 then
          let inicio := pad4 a ++ "-" ++ pad2 m ++ "-01T00:00:00"
          let fim := if m == 12 then pad4 (a + 1) ++ "-01-01T00:00:00"
                     else pad4 a ++ "-" ++ pad2 (m + 1) ++ "-01T00:00:00"
          rows.filter (fun t => strLe inicio t.data && strLt t.data fim)
        else rows
    | _, _ => rows
  let ordenadas := List.insertionSort
    (fun a b : Transacao => strLt b.data a.data = true ∨ (b.data = a.data ∧ b.id ≤ a.id)) rows
  ordenadas.map (fun t =>
    { id := t.id, data := t.data, tipo := t.tipo, valor := t.valor,
      conta_origem := nomeConta db (some t.conta_origem_id),
      conta_destino := nomeConta db t.conta_destino_id,
      categoria := nomeCategoria db t.categoria_id,
      descricao := t.descricao })

/-- `resumo_mes(ano, mes)` of `app.py`: sums the receita and despesa rows
of `buscar_transacoes(ano, mes)`. Returns (receitas, despesas, saldo). -/
def resumoMesApp (db : DB) (ano mes : Nat) : ℚ × ℚ × ℚ :=
  let df := buscarTransacoes db (some ano) (some mes) none
  let receitas := ((df.filter (fun t => t.tipo == "receita")).map (fun t => t.valor)).sum
  let despesas := ((df.filter (fun t => t.tipo == "despesa")).map (fun t => t.valor)).sum
  (receitas, despesas, receitas - despesas)

/-- The net effect of one transaction row on one account's `saldo_atual`:
its amount counts positively when it is a receita from the account or a
transferência into it, negatively when it is a despesa or transferência
out of it. -/
def deltaTransacao (t : Transacao) (conta_id : Nat) : ℚ :=
  (if (t.conta_origem_id == conta_id && t.tipo == "receita") = true then t.valor else 0)
  - (if (t.conta_origem_id == conta_id && t.tipo == "despesa") = true then t.valor else 0)
  - (if (t.conta_origem_id == conta_id && t.tipo == "transferencia") = true then t.valor else 0)
  + (if (t.conta_destino_id == some conta_id && t.tipo == "transferencia") = true
     then t.valor else 0)

/-- First rule of a list that is violated (its flag is `true`), if any:
the evaluation order demanded by the specification's rule list. -/
def primeiraViolacao : List (Bool × Erro) → Option Erro
  | [] => none
  | (b, e) :: r => if b then some e else primeiraViolacao r

/-- Modelled from the spec's §4.1 rule list, rule by rule in the stated
order: each entry pairs the condition under which the rule is violated
with the failure it must produce. To be compared with `validarTransacao`,
which is translated from the source. -/
def regrasNaOrdem (db : DB) (tipo : String) (valor : ℚ) (conta_origem_id : Nat)
    (categoria_id : Option Nat) (conta_destino_id : Option Nat) : List (Bool × Erro) :=
  [ (!(ALLOWED_TRANSACTION_TYPES.contains tipo), .tipoInvalido),
    (decide (valor < 0), .valorNegativo),
    (!(registroExistenteConta db conta_origem_id), .contaOrigemInexistente),
    (conta_destino_id.elim false (fun d => !(registroExistenteConta db d)),
     .contaDestinoInexistente),
    (tipo == "transferencia" && conta_destino_id.isNone, .transferenciaSemDestino),
    ((tipo == "receita" || tipo == "despesa") && categoria_id.isNone,
     .receitaDespesaSemCategoria),
    ((tipo == "receita" || tipo == "despesa") &&
       categoria_id.elim false
         (fun cid => (db.categorias.find? (fun c => c.id == cid)).isNone),
     .categoriaInexistente),
    ((tipo == "receita" || tipo == "despesa") &&
       categoria_id.elim false
         (fun cid => (db.categorias.find? (fun c => c.id == cid)).elim false
            (fun c => c.tipo != tipo)),
     .categoriaIncompativel) ]

/-- Predicate written from the spec's words for the unfiltered category
listing: consecutive rows are ordered by kind first, then by name. -/
def ordenadaPorTipoDepoisNome : List Categoria → Bool
  | [] => true
  | [_] => true
  | a :: b :: r =>
      (strLt a.tipo b.tipo || (a.tipo == b.tipo && strLe a.nome b.nome))
        && ordenadaPorTipoDepoisNome (b :: r)

/-- An empty store right after `criar_tabelas` (AUTOINCREMENT starts at 1). -/
def dbVazio : DB := ⟨[], [], [], 1, 1, 1⟩

/-- The spec's §8 end-to-end store: accounts Carteira (initial 100, id 1)
and Banco (initial 0, id 2) and category Salario/receita (id 1). -/
def dbBase : DB :=
  ⟨[⟨1, "Carteira", 100⟩, ⟨2, "Banco", 0⟩], [⟨1, "Salario", "receita"⟩], [], 3, 2, 1⟩

/-- `dbBase` after one receita of 100 on account 1 recorded at the last
second of January 2025. -/
def dbJaneiro : DB :=
  ⟨[⟨1, "Carteira", 100⟩, ⟨2, "Banco", 0⟩], [⟨1, "Salario", "receita"⟩],
   [⟨1, "receita", "2025-01-31T23:59:59", 100, some 1, 1, none, none⟩], 3, 2, 2⟩

/-- A store whose two categories order differently by name than by
(kind, name): Bonus/receita before Comida/despesa by name, after it by
kind. -/
def dbCategorias : DB :=
  ⟨[], [⟨1, "Bonus", "receita"⟩, ⟨2, "Comida", "despesa"⟩], [], 1, 3, 1⟩

theorem strLeAux_total (as : List Char) :
    ∀ bs, strLeAux as bs = true ∨ strLeAux bs as = true := by
  induction as with
  | nil => intro bs; left; rfl
  | cons a as ih =>
      intro bs
      cases bs with
      | nil => right; rfl
      | cons b bs =>
          by_cases h1 : a.toNat < b.toNat
          · left; simp [strLeAux, h1]
          · by_cases h2 : b.toNat < a.toNat
            · right; simp [strLeAux, h2]
            · rcases ih bs with h | h
              · left; simp [strLeAux, h1, h2, h]
              · right; simp [strLeAux, h1, h2, h]

theorem strLeAux_trans (as : List Char) :
    ∀ bs cs, strLeAux as bs = true → strLeAux bs cs = true → strLeAux as cs = true := by
  induction as with
  | nil => intro bs cs _ _; rfl
  | cons a as ih =>
      intro bs cs hab hbc
      cases bs with
      | nil => simp [strLeAux] at hab
      | cons b bs =>
          cases cs with
          | nil => simp [strLeAux] at hbc
          | cons c cs =>
              simp only [strLeAux] at hab hbc ⊢
              by_cases h1 : a.toNat < b.toNat
              · by_cases h2 : b.toNat < c.toNat
                · have h3 : a.toNat < c.toNat := Nat.lt_trans h1 h2
                  simp [h3]
                · by_cases h3 : c.toNat < b.toNat
                  · simp [h2, h3] at hbc
                  · have h4 : a.toNat < c.toNat := by omega
                    simp [h4]
              · by_cases h4 : b.toNat < a.toNat
                · simp [h1, h4] at hab
                · by_cases h2 : b.toNat < c.toNat
                  · have h5 : a.toNat < c.toNat := by omega
                    simp [h5]
                  · by_cases h3 : c.toNat < b.toNat
                    · simp [h2, h3] at hbc
                    · have h5 : ¬ a.toNat < c.toNat := by omega
                      have h6 : ¬ c.toNat < a.toNat := by omega
                      simp [h1, h4] at hab
                      simp [h2, h3] at hbc
                      simp [h5, h6]
                      exact ih bs cs hab hbc

theorem strLeAux_antisymm (as : List Char) :
    ∀ bs, strLeAux as bs = true → strLeAux bs as = true → as = bs := by
  induction as with
  | nil =>
      intro bs _ h2
      cases bs with
      | nil => rfl
      | cons b bs => simp [strLeAux] at h2
  | cons a as ih =>
      intro bs h1 h2
      cases bs with
      | nil => simp [strLeAux] at h1
      | cons b bs =>
          simp only [strLeAux] at h1 h2
          by_cases ha : a.toNat < b.toNat
          · have : ¬ b.toNat < a.toNat := by omega
            simp [ha, this] at h2
          · by_cases hb : b.toNat < a.toNat
            · simp [ha, hb] at h1
            · have hab : a = b := by
                have : a.toNat = b.toNat := by omega
                have h3 : Char.ofNat a.toNat = Char.ofNat b.toNat := by rw [this]
                rwa [Char.ofNat_toNat, Char.ofNat_toNat] at h3
              simp [ha, hb] at h1 h2
              rw [hab, ih bs h1 h2]

theorem strLe_total (a b : String) : strLe a b = true ∨ strLe b a = true :=
  strLeAux_total a.data b.data

theorem strLe_trans {a b c : String} (h1 : strLe a b = true) (h2 : strLe b c = true) :
    strLe a c = true :=
  strLeAux_trans a.data b.data c.data h1 h2

theorem strLe_antisymm {a b : String} (h1 : strLe a b = true) (h2 : strLe b a = true) :
    a = b := by
  have h3 := strLeAux_antisymm a.data b.data h1 h2
  cases a; cases b
  exact congrArg String.mk h3

theorem strLe_of_not_strLe {a b : String} (h : ¬ strLe a b = true) : strLe b a = true := by
  rcases strLe_total a b with h1 | h1
  · exact absurd h1 h
  · exact h1

instance : IsTotal Categoria (fun a b => strLe a.nome b.nome = true) :=
  ⟨fun a b => strLe_total a.nome b.nome⟩

instance : IsTrans Categoria (fun a b => strLe a.nome b.nome = true) :=
  ⟨fun _ _ _ h1 h2 => strLe_trans h1 h2⟩

instance : IsTotal Categoria (fun a b =>
    strLt a.tipo b.tipo = true ∨ (a.tipo = b.tipo ∧ strLe a.nome b.nome = true)) := by
  constructor
  intro a b
  by_cases hab : strLe a.tipo b.tipo = true
  · by_cases hba : strLe b.tipo a.tipo = true
    · have h := strLe_antisymm hab hba
      rcases strLe_total a.nome b.nome with h1 | h1
      · exact .inl (.inr ⟨h, h1⟩)
      · exact .inr (.inr ⟨h.symm, h1⟩)
    · left; left
      unfold strLt
      simp [hba]
  · right; left
    unfold strLt
    simp [hab]

instance : IsTrans Categoria (fun a b =>
    strLt a.tipo b.tipo = true ∨ (a.tipo = b.tipo ∧ strLe a.nome b.nome = true)) := by
  constructor
  intro a b c h1 h2
  have hlt : ∀ x y : String, strLt x y = true ↔ ¬ strLe y x = true := by
    intro x y; unfold strLt; simp
  rcases h1 with h1 | ⟨h1t, h1n⟩
  · rcases h2 with h2 | ⟨h2t, h2n⟩
    · left
      rw [hlt] at h1 h2 ⊢
      intro hca
      exact h2 (strLe_trans hca (strLe_of_not_strLe h1))
    · left; rwa [h2t] at h1
  · rcases h2 with h2 | ⟨h2t, h2n⟩
    · left; rwa [← h1t] at h2
    · exact .inr ⟨h1t.trans h2t, strLe_trans h1n h2n⟩

theorem sum_valores_append (l : List Transacao) (t : Transacao) (p : Transacao → Bool) :
    (((l ++ [t]).filter p).map (fun u => u.valor)).sum
      = ((l.filter p).map (fun u => u.valor)).sum
        + (if p t = true then t.valor else 0) := by
  by_cases hp : p t = true <;> simp [List.filter_append, hp]

theorem saldoAtual_append (db : DB) (t : Transacao) (n : Nat) (x : Nat) :
    saldoAtual { db with transacoes := db.transacoes ++ [t], next_transacao_id := n } x
      = (saldoAtual db x).map (fun s => s + deltaTransacao t x) := by
  unfold saldoAtual totalPorTipo totalTransferenciasEntrando
  cases h : db.contas.find? (fun c => c.id == x) with
  | none => simp [h, Except.map]
  | some c =>
      simp only [h]
      rw [sum_valores_append, sum_valores_append, sum_valores_append, sum_valores_append]
      unfold deltaTransacao
      simp only [Except.map]
      congr 1
      ring

theorem registrar_ok (db : DB) (tipo : String) (valor : ℚ) (o : Nat) (data : String)
    (cat dest : Option Nat) (desc : Option String)
    (h : validarTransacao db tipo valor o cat dest = none) :
    registrarTransacao db tipo valor o data cat dest desc =
      ({ db with
           transacoes := db.transacoes ++ [⟨db.next_transacao_id, tipo, data, valor, cat, o,
             dest, desc⟩],
           next_transacao_id := db.next_transacao_id + 1 },
       .ok db.next_transacao_id) := by
  unfold registrarTransacao
  rw [h]

theorem validar_transferencia_ok (db : DB) (v : ℚ) (o d : Nat) (cat : Option Nat)
    (ho : registroExistenteConta db o = true) (hd : registroExistenteConta db d = true)
    (hv : 0 ≤ v) :
    validarTransacao db "transferencia" v o cat (some d) = none := by
  unfold validarTransacao
  simp [ho, hd, not_lt.mpr hv, ALLOWED_TRANSACTION_TYPES]

theorem registroExistente_of_saldo (db : DB) (x : Nat) (q : ℚ)
    (h : saldoAtual db x = .ok q) : registroExistenteConta db x = true := by
  unfold saldoAtual at h
  cases hf : db.contas.find? (fun c => c.id == x) with
  | none => rw [hf] at h; cases h
  | some c =>
      have hmem := List.mem_of_find?_eq_some hf
      have hp := List.find?_some hf
      unfold registroExistenteConta
      exact List.any_eq_true.mpr ⟨c, hmem, hp⟩

theorem validar_receita_despesa_ok (db : DB) (tipo : String) (v : ℚ) (o : Nat)
    (dest : Option Nat) (cid : Nat) (c : Categoria)
    (htipo : tipo = "receita" ∨ tipo = "despesa")
    (ho : registroExistenteConta db o = true)
    (hdest : dest.elim True (fun d => registroExistenteConta db d = true))
    (hv : 0 ≤ v)
    (hcat : db.categorias.find? (fun x => x.id == cid) = some c)
    (hct : c.tipo = tipo) :
    validarTransacao db tipo v o (some cid) dest = none := by
  unfold validarTransacao
  rcases htipo with h | h <;> subst h <;> cases dest with
  | none => simp [ho, not_lt.mpr hv, ALLOWED_TRANSACTION_TYPES, hcat, hct]
  | some d =>
      simp only [Option.elim] at hdest
      simp [ho, hdest, not_lt.mpr hv, ALLOWED_TRANSACTION_TYPES, hcat, hct]

/-- C1: for an account id that resolves, `saldo_atual` is the initial
balance plus the receitas from the account, minus the despesas from it,
minus the transferências out of it, plus the transferências into it; for
an id that does not resolve it fails with the account-not-found error. -/
theorem saldo_atual_formula (db : DB) (cid : Nat) (c : Conta) :
    (db.contas.find? (fun x => x.id == cid) = some c →
      saldoAtual db cid = .ok (c.saldo_inicial
        + ((db.transacoes.filter
              (fun t => t.tipo == "receita" && t.conta_origem_id == cid)).map
            (fun t => t.valor)).sum
        - ((db.transacoes.filter
              (fun t => t.tipo == "despesa" && t.conta_origem_id == cid)).map
            (fun t => t.valor)).sum
        - ((db.transacoes.filter
              (fun t => t.tipo == "transferencia" && t.conta_origem_id == cid)).map
            (fun t => t.valor)).sum
        + ((db.transacoes.filter
              (fun t => t.tipo == "transferencia" && t.conta_destino_id == some cid)).map
            (fun t => t.valor)).sum))
    ∧ (db.contas.find? (fun x => x.id == cid) = none →
      saldoAtual db cid = .error .contaNaoEncontrada) := by
  constructor
  · intro h
    have e1 : ∀ tp : String,
        db.transacoes.filter (fun t => t.conta_origem_id == cid && t.tipo == tp)
          = db.transacoes.filter (fun t => t.tipo == tp && t.conta_origem_id == cid) :=
      fun tp => List.filter_congr (fun t _ => Bool.and_comm _ _)
    have e2 : db.transacoes.filter
          (fun t => t.conta_destino_id == some cid && t.tipo == "transferencia")
        = db.transacoes.filter
          (fun t => t.tipo == "transferencia" && t.conta_destino_id == some cid) :=
      List.filter_congr (fun t _ => Bool.and_comm _ _)
    unfold saldoAtual totalPorTipo totalTransferenciasEntrando
    rw [h, e1, e1, e1, e2]
  · intro h
    unfold saldoAtual
    rw [h]

/-- Witness for C1: on the end-to-end store, account 1 resolves and its
balance is its initial 100. -/
theorem saldo_atual_formula_witness : saldoAtual dbBase 1 = .ok 100 := by
  have h := (saldo_atual_formula dbBase 1 ⟨1, "Carteira", 100⟩).1 rfl
  simpa [dbBase] using h

/-- C4: when validation fails, `registrar_transacao` returns the typed
failure and the store is unchanged — no row is appended and every
account's balance is the same as before the call. -/
theorem registrar_falha_atomica (db : DB) (tipo : String) (valor : ℚ) (o : Nat)
    (data : String) (cat dest : Option Nat) (desc : Option String) (e : Erro)
    (h : validarTransacao db tipo valor o cat dest = some e) :
    registrarTransacao db tipo valor o data cat dest desc = (db, .error e)
    ∧ (registrarTransacao db tipo valor o data cat dest desc).1.transacoes = db.transacoes
    ∧ ∀ cid, saldoAtual (registrarTransacao db tipo valor o data cat dest desc).1 cid
        = saldoAtual db cid := by
  have h1 : registrarTransacao db tipo valor o data cat dest desc = (db, .error e) := by
    unfold registrarTransacao
    rw [h]
  exact ⟨h1, by rw [h1], fun cid => by rw [h1]⟩

/-- Witness for C4: an unknown kind is rejected and the empty store stays
empty. -/
theorem registrar_falha_atomica_witness :
    validarTransacao dbVazio "pagamento" 5 1 none none = some .tipoInvalido
    ∧ registrarTransacao dbVazio "pagamento" 5 1 "2025-01-01" none none none
        = (dbVazio, .error .tipoInvalido) :=
  ⟨by decide,
   (registrar_falha_atomica dbVazio "pagamento" 5 1 "2025-01-01" none none none
      .tipoInvalido (by decide)).1⟩

/-- C5: recording a transfer of `v` between two distinct existing accounts
succeeds, debits the source by exactly `v`, credits the destination by
exactly `v`, and leaves every other account's balance unchanged. -/
theorem transferencia_dupla_entrada (db : DB) (A B : Nat) (v : ℚ) (data : String)
    (desc : Option String) (a b : ℚ)
    (hAB : A ≠ B) (hv : 0 ≤ v)
    (hA : saldoAtual db A = .ok a) (hB : saldoAtual db B = .ok b) :
    (registrarTransacao db "transferencia" v A data none (some B) desc).2
        = .ok db.next_transacao_id
    ∧ saldoAtual (registrarTransacao db "transferencia" v A data none (some B) desc).1 A
        = .ok (a - v)
    ∧ saldoAtual (registrarTransacao db "transferencia" v A data none (some B) desc).1 B
        = .ok (b + v)
    ∧ ∀ C, C ≠ A → C ≠ B →
        saldoAtual (registrarTransacao db "transferencia" v A data none (some B) desc).1 C
          = saldoAtual db C := by
  have hexA := registroExistente_of_saldo db A a hA
  have hexB := registroExistente_of_saldo db B b hB
  have hval := validar_transferencia_ok db v A B none hexA hexB hv
  have hreg := registrar_ok db "transferencia" v A data none (some B) desc hval
  rw [hreg]
  refine ⟨rfl, ?_, ?_, ?_⟩
  · rw [saldoAtual_append, hA]
    have hd : deltaTransacao
        ⟨db.next_transacao_id, "transferencia", data, v, none, A, some B, desc⟩ A = -v := by
      unfold deltaTransacao
      simp [Ne.symm hAB]
    rw [hd]
    simp only [Except.map]
    congr 1
    ring
  · rw [saldoAtual_append, hB]
    have hd : deltaTransacao
        ⟨db.next_transacao_id, "transferencia", data, v, none, A, some B, desc⟩ B = v := by
      unfold deltaTransacao
      simp [hAB]
    rw [hd]
    simp only [Except.map]
  · intro C hCA hCB
    rw [saldoAtual_append]
    have hd : deltaTransacao
        ⟨db.next_transacao_id, "transferencia", data, v, none, A, some B, desc⟩ C = 0 := by
      unfold deltaTransacao
      simp [Ne.symm hCA, Ne.symm hCB]
    rw [hd]
    cases saldoAtual db C <;> simp [Except.map]

/-- Witness for C5: the spec's transfer of 200 from Carteira to Banco. -/
theorem transferencia_dupla_entrada_witness :
    saldoAtual
        (registrarTransacao dbBase "transferencia" 200 1 "2025-01-17" none (some 2) none).1 1
      = .ok (100 - 200)
    ∧ saldoAtual
        (registrarTransacao dbBase "transferencia" 200 1 "2025-01-17" none (some 2) none).1 2
      = .ok (0 + 200) := by
  have h := transferencia_dupla_entrada dbBase 1 2 200 "2025-01-17" none 100 0
    (by decide) (by norm_num)
    (by simp [saldoAtual, dbBase, totalPorTipo, totalTransferenciasEntrando])
    (by simp [saldoAtual, dbBase, totalPorTipo, totalTransferenciasEntrando])
  exact ⟨h.2.1, h.2.2.1⟩

/-- C9: a transfer whose destination equals its source passes validation
(for any non-negative amount on an existing account), and recording it
leaves every account's balance unchanged — the debit and the credit
cancel. -/
theorem auto_transferencia_valida (db : DB) (A : Nat) (v : ℚ) (data : String)
    (cat : Option Nat) (desc : Option String)
    (hA : registroExistenteConta db A = true) (hv : 0 ≤ v) :
    validarTransacao db "transferencia" v A cat (some A) = none
    ∧ (registrarTransacao db "transferencia" v A data cat (some A) desc).2
        = .ok db.next_transacao_id
    ∧ ∀ cid,
        saldoAtual (registrarTransacao db "transferencia" v A data cat (some A) desc).1 cid
          = saldoAtual db cid := by
  have hval := validar_transferencia_ok db v A A cat hA hA hv
  have hreg := registrar_ok db "transferencia" v A data cat (some A) desc hval
  refine ⟨hval, ?_, ?_⟩
  · rw [hreg]
  · intro cid
    rw [hreg, saldoAtual_append]
    have hdelta : deltaTransacao
        ⟨db.next_transacao_id, "transferencia", data, v, cat, A, some A, desc⟩ cid = 0 := by
      unfold deltaTransacao
      by_cases h : A = cid
      · subst h; simp
      · simp [h]
    rw [hdelta]
    cases saldoAtual db cid <;> simp [Except.map]

/-- Witness for C9: a self-transfer of 5 on account 1 of the end-to-end
store is valid and leaves account 1's balance alone. -/
theorem auto_transferencia_valida_witness :
    validarTransacao dbBase "transferencia" 5 1 none (some 1) = none
    ∧ saldoAtual (registrarTransacao dbBase "transferencia" 5 1 "2025-03-01" none (some 1)
        none).1 1 = saldoAtual dbBase 1 := by
  have h := auto_transferencia_valida dbBase 1 5 "2025-03-01" none none
    (by decide) (by norm_num)
  exact ⟨h.1, h.2.2 1⟩

/-- C10: an income or expense transaction carrying a destination account
id is not rejected for it (the destination only has to exist), the stored
row keeps the destination id, and the destination has no effect on any
balance — the balances equal those obtained by recording the same row
with no destination. -/
theorem destino_ignorado_em_receita_despesa (db : DB) (tipo : String) (v : ℚ)
    (A d cid : Nat) (c : Categoria) (data : String) (desc : Option String)
    (htipo : tipo = "receita" ∨ tipo = "despesa")
    (hA : registroExistenteConta db A = true)
    (hd : registroExistenteConta db d = true)
    (hv : 0 ≤ v)
    (hcat : db.categorias.find? (fun x => x.id == cid) = some c)
    (hct : c.tipo = tipo) :
    validarTransacao db tipo v A (some cid) (some d) = none
    ∧ (registrarTransacao db tipo v A data (some cid) (some d) desc).2
        = .ok db.next_transacao_id
    ∧ (registrarTransacao db tipo v A data (some cid) (some d) desc).1.transacoes.getLast?
        = some ⟨db.next_transacao_id, tipo, data, v, some cid, A, some d, desc⟩
    ∧ ∀ x, saldoAtual (registrarTransacao db tipo v A data (some cid) (some d) desc).1 x
        = saldoAtual (registrarTransacao db tipo v A data (some cid) none desc).1 x := by
  have hval := validar_receita_despesa_ok db tipo v A (some d) cid c htipo hA hd hv hcat hct
  have hval2 := validar_receita_despesa_ok db tipo v A none cid c htipo hA trivial hv hcat hct
  have hreg := registrar_ok db tipo v A data (some cid) (some d) desc hval
  have hreg2 := registrar_ok db tipo v A data (some cid) none desc hval2
  refine ⟨hval, ?_, ?_, ?_⟩
  · rw [hreg]
  · rw [hreg]
    exact List.getLast?_concat _
  · intro x
    rw [hreg, hreg2, saldoAtual_append, saldoAtual_append]
    have hdelta : deltaTransacao
          ⟨db.next_transacao_id, tipo, data, v, some cid, A, some d, desc⟩ x
        = deltaTransacao
          ⟨db.next_transacao_id, tipo, data, v, some cid, A, none, desc⟩ x := by
      rcases htipo with h | h <;> subst h <;> (unfold deltaTransacao; simp)
    rw [hdelta]

/-- Witness for C10: a receita of 5 on account 1 with destination 2 is
accepted, keeps the destination in the stored row, and account 2's
balance matches the destination-free recording. -/
theorem destino_ignorado_em_receita_despesa_witness :
    validarTransacao dbBase "receita" 5 1 (some 1) (some 2) = none
    ∧ saldoAtual (registrarTransacao dbBase "receita" 5 1 "2025-03-02" (some 1) (some 2)
          none).1 2
        = saldoAtual (registrarTransacao dbBase "receita" 5 1 "2025-03-02" (some 1) none
          none).1 2 := by
  have h := destino_ignorado_em_receita_despesa dbBase "receita" 5 1 2 1
    ⟨1, "Salario", "receita"⟩ "2025-03-02" none (.inl rfl) (by decide) (by decide)
    (by norm_num) (by decide) rfl
  exact ⟨h.1, h.2.2.2 2⟩

/-- C7: `criar_categoria` is idempotent — called twice with the same
(nome, tipo) pair it returns the same id both times and the store keeps
exactly one category with that pair (given that the store respects the
UNIQUE(nome, tipo) constraint beforehand). -/
theorem criar_categoria_idempotente (db : DB) (nome tipo : String)
    (htipo : tipo = "receita" ∨ tipo = "despesa")
    (hunico : (db.categorias.filter (fun c => c.nome == nome && c.tipo == tipo)).length ≤ 1) :
    ∃ db1 i, criarCategoria db nome tipo = .ok (db1, i)
      ∧ criarCategoria db1 nome tipo = .ok (db1, i)
      ∧ (db1.categorias.filter (fun c => c.nome == nome && c.tipo == tipo)).length = 1 := by
  have hallow : tipo ∈ ALLOWED_CATEGORY_TYPES := by
    rcases htipo with h | h <;> subst h <;> decide
  cases hf : db.categorias.find? (fun c => c.nome == nome && c.tipo == tipo) with
  | some c =>
      refine ⟨db, c.id, ?_, ?_, ?_⟩
      · simp [criarCategoria, hallow, hf]
      · simp [criarCategoria, hallow, hf]
      · have hmem := List.mem_of_find?_eq_some hf
        have hp := List.find?_some hf
        have h1 : c ∈ db.categorias.filter (fun c => c.nome == nome && c.tipo == tipo) :=
          List.mem_filter.mpr ⟨hmem, hp⟩
        have h2 := List.length_pos_of_mem h1
        omega
  | none =>
      refine ⟨{ db with
          categorias := db.categorias ++ [⟨db.next_categoria_id, nome, tipo⟩],
          next_categoria_id := db.next_categoria_id + 1 }, db.next_categoria_id, ?_, ?_, ?_⟩
      · simp [criarCategoria, hallow, hf]
      · have hfind2 : (db.categorias ++ [(⟨db.next_categoria_id, nome, tipo⟩ : Categoria)]).find?
            (fun c => c.nome == nome && c.tipo == tipo)
            = some ⟨db.next_categoria_id, nome, tipo⟩ := by
          rw [List.find?_append, hf]
          simp
        simp [criarCategoria, hallow, hfind2]
      · have hnil : db.categorias.filter (fun c => c.nome == nome && c.tipo == tipo) = [] :=
          List.filter_eq_nil_iff.mpr (List.find?_eq_none.mp hf)
        simp [List.filter_append, hnil]

/-- Witness for C7: creating Comida/despesa twice on the end-to-end store
yields the same id twice and a single stored copy. -/
theorem criar_categoria_idempotente_witness :
    ((dbBase.categorias.filter (fun c => c.nome == "Comida" && c.tipo == "despesa")).length ≤ 1)
    ∧ ∃ db1 i, criarCategoria dbBase "Comida" "despesa" = .ok (db1, i)
        ∧ criarCategoria db1 "Comida" "despesa" = .ok (db1, i)
        ∧ (db1.categorias.filter (fun c => c.nome == "Comida" && c.tipo == "despesa")).length
            = 1 :=
  ⟨by decide,
   criar_categoria_idempotente dbBase "Comida" "despesa" (.inr rfl) (by decide)⟩

/-- C6 counterexample: `criar_conta` does not fail on a duplicate name —
on a store already holding a "Carteira" account it succeeds with a fresh
id and leaves two accounts named "Carteira". -/
theorem criar_conta_duplicado_contraexemplo :
    (criarConta dbBase "Carteira" 0).2 = 3
    ∧ ((criarConta dbBase "Carteira" 0).1.contas.filter
        (fun c => c.nome == "Carteira")).length = 2 := by
  constructor <;> decide

/-- C6 amended: `criar_conta` of `financas.py` inserts unconditionally —
it returns a fresh id even when the name exists, so the engine does not
enforce name uniqueness; only `app.py`'s store, whose `conta.nome` column
is declared UNIQUE, rejects the duplicate insert (as a storage constraint
violation, not a typed DuplicateName failure). -/
theorem criar_conta_sem_verificacao (db : DB) (nome : String) (s : ℚ)
    (hdup : db.contas.any (fun c => c.nome == nome) = true) :
    (criarConta db nome s).2 = db.next_conta_id
    ∧ ((criarConta db nome s).1.contas.filter (fun c => c.nome == nome)).length
        = (db.contas.filter (fun c => c.nome == nome)).length + 1
    ∧ inserirConta db nome s = .error () := by
  refine ⟨rfl, ?_, ?_⟩
  · simp [criarConta, List.filter_append]
  · simp [inserirConta, hdup]

/-- Witness for C6 amended: duplicating "Banco" on the end-to-end store. -/
theorem criar_conta_sem_verificacao_witness :
    dbBase.contas.any (fun c => c.nome == "Banco") = true
    ∧ inserirConta dbBase "Banco" 5 = .error () :=
  ⟨by decide, (criar_conta_sem_verificacao dbBase "Banco" 5 (by decide)).2.2⟩

/-- C8 counterexample: on a store with categories Bonus/receita and
Comida/despesa, the unfiltered `listar_categorias` of `financas.py`
returns them in name order (Bonus before Comida), which is not ordered by
kind first — the despesa row would have to precede the receita row. -/
theorem listar_categorias_ordem_contraexemplo :
    (listarCategorias dbCategorias none).map (fun c => (c.tipo, c.nome))
        = [("receita", "Bonus"), ("despesa", "Comida")]
    ∧ ordenadaPorTipoDepoisNome (listarCategorias dbCategorias none) = false := by
  constructor <;> rfl

/-- C8 amended: with a kind filter both listings return exactly the
categories of that kind ordered by name; without one, `app.py`'s listing
is ordered by kind then name as claimed, but `financas.py`'s is ordered
by name only. -/
theorem listar_categorias_ordenacao (db : DB) (t : String) (ht : t ≠ "") :
    (listarCategorias db none).Perm db.categorias
    ∧ List.Sorted (fun a b : Categoria => strLe a.nome b.nome = true)
        (listarCategorias db none)
    ∧ (listarCategorias db (some t)).Perm
        (db.categorias.filter (fun c => c.tipo == t))
    ∧ List.Sorted (fun a b : Categoria => strLe a.nome b.nome = true)
        (listarCategorias db (some t))
    ∧ (listarCategoriasApp db none).Perm db.categorias
    ∧ List.Sorted (fun a b : Categoria =>
          strLt a.tipo b.tipo = true ∨ (a.tipo = b.tipo ∧ strLe a.nome b.nome = true))
        (listarCategoriasApp db none)
    ∧ (listarCategoriasApp db (some t)).Perm
        (db.categorias.filter (fun c => c.tipo == t))
    ∧ List.Sorted (fun a b : Categoria => strLe a.nome b.nome = true)
        (listarCategoriasApp db (some t)) := by
  have htr : tipoTruthy (some t) = true := by
    simp [tipoTruthy, ht]
  have hfe : (fun c : Categoria => some c.tipo == some t) = (fun c => c.tipo == t) :=
    funext fun c => rfl
  refine ⟨?_, ?_, ?_, ?_, ?_, ?_, ?_, ?_⟩
  · simp only [listarCategorias, tipoTruthy, if_false]
    exact List.perm_insertionSort _ _
  · simp only [listarCategorias, tipoTruthy, if_false]
    exact List.sorted_insertionSort _ _
  · simp only [listarCategorias, htr, if_true, hfe]
    exact List.perm_insertionSort _ _
  · simp only [listarCategorias, htr, if_true, hfe]
    exact List.sorted_insertionSort _ _
  · simp only [listarCategoriasApp, tipoTruthy, if_false]
    exact List.perm_insertionSort _ _
  · simp only [listarCategoriasApp, tipoTruthy, if_false]
    exact List.sorted_insertionSort _ _
  · simp only [listarCategoriasApp, htr, if_true, hfe]
    exact List.perm_insertionSort _ _
  · simp only [listarCategoriasApp, htr, if_true, hfe]
    exact List.sorted_insertionSort _ _

/-- Witness for C8 amended: the filtered listing on the two-category
store. -/
theorem listar_categorias_ordenacao_witness :
    ("receita" : String) ≠ ""
    ∧ (listarCategorias dbCategorias (some "receita")).Perm
        (dbCategorias.categorias.filter (fun c => c.tipo == "receita")) :=
  ⟨by decide, (listar_categorias_ordenacao dbCategorias "receita" (by decide)).2.2.1⟩

/-- C3: `_validar_transacao` fails with the first violated rule of the
specification's ordered rule list — unknown kind, negative amount, unknown
source account, present-but-unknown destination account, transfer without
destination, income/expense without category, unknown category, category
kind mismatch — and accepts when no rule is violated. -/
theorem validacao_primeira_regra (db : DB) (tipo : String) (valor : ℚ)
    (o : Nat) (cat dest : Option Nat) :
    validarTransacao db tipo valor o cat dest
      = primeiraViolacao (regrasNaOrdem db tipo valor o cat dest) := by
  by_cases h1 : ALLOWED_TRANSACTION_TYPES.contains tipo = true
  · have h1m : tipo ∈ ALLOWED_TRANSACTION_TYPES := by simpa using h1
    have htipos : tipo = "receita" ∨ tipo = "despesa" ∨ tipo = "transferencia" := by
      simpa [ALLOWED_TRANSACTION_TYPES] using h1m
    by_cases h2 : valor < 0
    · simp [validarTransacao, regrasNaOrdem, primeiraViolacao, h1, h1m, h2]
    · by_cases h3 : registroExistenteConta db o = true
      · cases dest with
        | some d =>
            by_cases h4 : registroExistenteConta db d = true
            · rcases cat with _ | cid
              · rcases htipos with h | h | h <;> subst h <;>
                  simp [validarTransacao, regrasNaOrdem, primeiraViolacao, h2, h3, h4]
              · cases hfind : db.categorias.find? (fun c => c.id == cid) with
                | none =>
                    rcases htipos with h | h | h <;> subst h <;>
                      simp [validarTransacao, regrasNaOrdem, primeiraViolacao,
                        h2, h3, h4, hfind]
                | some c =>
                    by_cases h5 : c.tipo = tipo <;>
                      rcases htipos with h | h | h <;> subst h <;>
                      simp [validarTransacao, regrasNaOrdem, primeiraViolacao,
                        h2, h3, h4, hfind, h5]
            · simp [validarTransacao, regrasNaOrdem, primeiraViolacao, h1, h1m, h2, h3, h4]
        | none =>
            rcases cat with _ | cid
            · rcases htipos with h | h | h <;> subst h <;>
                simp [validarTransacao, regrasNaOrdem, primeiraViolacao, h2, h3]
            · cases hfind : db.categorias.find? (fun c => c.id == cid) with
              | none =>
                  rcases htipos with h | h | h <;> subst h <;>
                    simp [validarTransacao, regrasNaOrdem, primeiraViolacao, h2, h3, hfind]
              | some c =>
                  by_cases h5 : c.tipo = tipo <;>
                    rcases htipos with h | h | h <;> subst h <;>
                    simp [validarTransacao, regrasNaOrdem, primeiraViolacao,
                      h2, h3, hfind, h5]
      · simp [validarTransacao, regrasNaOrdem, primeiraViolacao, h1, h1m, h2, h3]
  · simp at h1
    simp [validarTransacao, regrasNaOrdem, primeiraViolacao, h1]

/-- C2 (failing input): on a store whose only transaction is a receita of
100 dated 2025-01-31T23:59:59, the month summary of `financas.py` returns
zero receitas for January 2025 — its inclusive `BETWEEN "2025-01-01" AND
"2025-01-31"` string comparison drops the row, while `app.py`'s half-open
`[2025-01-01T00:00:00, 2025-02-01T00:00:00)` window includes it as the
claim requires. -/
theorem resumo_mes_divergencia :
    resumoMes dbJaneiro 2025 1 = (0, 0, 0)
    ∧ resumoMesApp dbJaneiro 2025 1 = (100, 0, 100) := by
  constructor
  · have hfil : dbJaneiro.transacoes.filter
        (fun t => strLe (pad4 2025 ++ "-" ++ pad2 1 ++ "-01") t.data
          && strLe t.data (pad4 2025 ++ "-" ++ pad2 1 ++ "-" ++ pad2 (ultimoDiaDoMes 2025 1)))
        = [] := by decide
    simp [resumoMes, hfil]
  · have hbus : buscarTransacoes dbJaneiro (some 2025) (some 1) none
        = [⟨1, "2025-01-31T23:59:59", "receita", 100, some "Carteira", none, some "Salario",
            none⟩] := by decide
    have hrec : ([(⟨1, "2025-01-31T23:59:59", "receita", 100, some "Carteira", none,
        some "Salario", none⟩ : LinhaTransacao)].filter (fun t => t.tipo == "receita"))
        = [⟨1, "2025-01-31T23:59:59", "receita", 100, some "Carteira", none, some "Salario",
            none⟩] := by decide
    have hdes : ([(⟨1, "2025-01-31T23:59:59", "receita", 100, some "Carteira", none,
        some "Salario", none⟩ : LinhaTransacao)].filter (fun t => t.tipo == "despesa"))
        = [] := by decide
    simp [resumoMesApp, hbus, hrec, hdes]

end Financas
